import Mathlib

/-
  Verification of the WaxJS login-and-signing orchestration
  (src/src/index.ts) against its natural-language specification.

  The TypeScript class is embedded shallowly: class fields become an
  explicit `WaxState` record threaded through the methods, promises that
  reject become `Except` results, the backend fetch outcomes and the
  popup-window message stream become explicit oracle parameters, and the
  external-call side effects that the spec talks about (endpoint attempt,
  popup attempt) are recorded in an event trace.
-/

namespace WaxJS

/-- A whitelist entry (`IWhitelistedContract`): the `recipients` field is
optional in the TypeScript interface, hence `Option`. -/
structure WhitelistedContract where
  contract : String
  recipients : Option (List String)
deriving DecidableEq, Repr

/-- The (only) piece of `action.data` the evaluator reads: the transfer
destination `action.data.to` (named `toAccount` here because `to` is a
reserved token in Lean). -/
structure ActionData where
  toAccount : String
deriving DecidableEq, Repr

/-- A deserialized action: `{ account, name, data }`. -/
structure Action where
  account : String
  name : String
  data : ActionData
deriving DecidableEq, Repr

/-- A transaction is either already in deserialized action form
(`transaction.actions` present) or an opaque serialized byte sequence that
the external RPC collaborator must deserialize first. -/
inductive Transaction where
  | deserialized (actions : List Action)
  | serialized (bytes : List Nat)
deriving DecidableEq, Repr

/-- `isWhitelisted(action)` from src/src/index.ts, lines 194-204, with the
whitelist passed explicitly (`this.whitelistedContracts`).  The JS
`Array.prototype.find` scan becomes structural recursion; the call
`w.recipients.includes(...)` on an absent (`undefined`) `recipients`
field raises a TypeError in JS, which is modelled as `.error ()`. -/
def isWhitelisted (a : Action) : List WhitelistedContract → Except Unit Bool
  | [] => .ok false
  | w :: ws =>
    if w.contract = a.account then
      if a.account = "eosio.token" ∧ a.name = "transfer" then
        match w.recipients with
        | none => .error ()
        | some rs => if a.data.toAccount ∈ rs then .ok true else isWhitelisted a ws
      else .ok true
    else isWhitelisted a ws

/-- The body of `canAutoSign`: models
`!deserializedTransaction.actions.find(action => !this.isWhitelisted(action))`;
the scan stops at the first action that is not whitelisted, and a TypeError
thrown by `isWhitelisted` propagates. -/
def allActionsWhitelisted (wl : List WhitelistedContract) : List Action → Except Unit Bool
  | [] => .ok true
  | a :: as =>
    match isWhitelisted a wl with
    | .error e => .error e
    | .ok false => .ok false
    | .ok true => allActionsWhitelisted wl as

/-- `canAutoSign(transaction)` from src/src/index.ts, lines 185-192.
`deser` stands for the external
`this.api.deserializeTransactionWithActions`. -/
def canAutoSign (deser : List Nat → List Action) (tx : Transaction)
    (wl : List WhitelistedContract) : Except Unit Bool :=
  match tx with
  | .deserialized as => allActionsWhitelisted wl as
  | .serialized bs => allActionsWhitelisted wl (deser bs)

/-- The specification's reading of the whitelist evaluator (spec §4.1),
stated from the spec's words for comparison with `isWhitelisted`: some
entry's `contract` equals `action.account`, and for an
`eosio.token`/`transfer` action that entry additionally lists
`action.data.to` in its `recipients`. -/
def isWhitelistedSpec (a : Action) (wl : List WhitelistedContract) : Prop :=
  ∃ w ∈ wl, w.contract = a.account ∧
    (a.account = "eosio.token" ∧ a.name = "transfer" →
      a.data.toAccount ∈ w.recipients.getD [])

/-- The mutable fields of the `WaxJS` class instance, plus the single
`localStorage` key the class writes.  `autoLoginStored` is `none` while
the `autoLogin` key has never been written; once written it holds the
(possibly absent, hence inner `Option`) `autoLogin` flag of the login
payload. -/
structure WaxState where
  userAccount : Option String
  pubKeys : Option (List String)
  whitelistedContracts : List WhitelistedContract
  signingWindow : Option Nat
  autoLoginStored : Option (Option Bool)
deriving DecidableEq, Repr

/-- The class state right after the field initializers run and before any
login: every nullable field unset. -/
def initState : WaxState :=
  { userAccount := none, pubKeys := none, whitelistedContracts := [],
    signingWindow := none, autoLoginStored := none }

/-- The errors the login path can throw (spec §7). -/
inductive LoginErr where
  | declined
  | noAccount
  | endpointError
deriving DecidableEq, Repr

/-- The fields `receiveLogin` destructures out of `event.data`.  Nullable
fields are `Option`; `verified` is checked for truthiness. -/
structure LoginData where
  verified : Bool
  userAccount : Option String
  pubKeys : Option (List String)
  whitelistedContracts : Option (List WhitelistedContract)
  autoLogin : Option Bool
deriving DecidableEq, Repr

/-- `receiveLogin(event)` from src/src/index.ts, lines 105-124: rejects an
unverified event, rejects a missing account or key list, then writes the
`autoLogin` flag to storage, replaces the whitelist with
`whitelistedContracts || []`, stores the account and keys, and returns the
account name.  (The construction of the signature provider and the
`transact` monkeypatch that follow in the source are modelled separately
by `signCb` and the signing functions below.) -/
def receiveLogin (d : LoginData) (st : WaxState) : Except LoginErr (WaxState × String) :=
  if !d.verified then .error .declined
  else
    match d.userAccount, d.pubKeys with
    | some ua, some pks =>
        .ok ({ st with
                autoLoginStored := some d.autoLogin,
                whitelistedContracts := d.whitelistedContracts.getD [],
                userAccount := some ua,
                pubKeys := some pks }, ua)
    | _, _ => .error .noAccount

/-- Outcome of the `fetch` against the auto-login endpoint: the promise
rejects, or a response arrives with a given `ok` flag, a
`processed.except` marker, and (when consulted) a JSON body. -/
inductive LoginFetchOutcome where
  | thrown
  | response (ok : Bool) (hasExcept : Bool) (data : LoginData)

/-- `loginViaEndpoint()` from src/src/index.ts, lines 88-103: non-OK HTTP
or a `processed.except` body throws; otherwise the body is handed to
`receiveLogin`. -/
def loginViaEndpoint (o : LoginFetchOutcome) (st : WaxState) :
    WaxState × Except LoginErr String :=
  match o with
  | .thrown => (st, .error .endpointError)
  | .response ok hasExcept d =>
    if !ok then (st, .error .endpointError)
    else if hasExcept then (st, .error .endpointError)
    else
      match receiveLogin d st with
      | .ok (st', acct) => (st', .ok acct)
      | .error e => (st, .error e)

/-- JS truthiness of an optional string: `undefined` and `""` are falsy. -/
def truthyStr : Option String → Bool
  | none => false
  | some s => s ≠ ""

/-- The external calls the bootstrap and login paths can make. -/
inductive ExtCall where
  | fetchLogin
  | openLoginPopup
deriving DecidableEq, Repr

/-- The constructor from src/src/index.ts, lines 18-51, restricted to the
state it establishes and the external calls it makes: with a truthy
`userAccount` and an array `pubKeys` it feeds the synthesized event
`{ userAccount, pubKeys, verified: true }` straight to `receiveLogin`
(no network, no popup); otherwise, when `tryAutoLogin` is set, it fires
`loginViaEndpoint` (whose rejection is unawaited and leaves the state
unchanged). -/
def construct (userAccount : Option String) (pubKeys : Option (List String))
    (tryAutoLogin : Bool) (o : LoginFetchOutcome) : WaxState × List ExtCall :=
  if truthyStr userAccount && pubKeys.isSome then
    match receiveLogin
        { verified := true, userAccount := userAccount, pubKeys := pubKeys,
          whitelistedContracts := none, autoLogin := none } initState with
    | .ok (st, _) => (st, [])
    | .error _ => (initState, [])
  else if tryAutoLogin then ((loginViaEndpoint o initState).1, [.fetchLogin])
  else (initState, [])

/-- What `login()` does: either resolve immediately with the account name
or go through the interactive popup flow. -/
inductive LoginResult where
  | immediate (account : String)
  | viaWindow
deriving DecidableEq, Repr

/-- `login()` from src/src/index.ts, lines 53-60: with a truthy
`userAccount` and an array `pubKeys` it resolves immediately; otherwise it
opens the login popup (`loginViaWindow`). -/
def login (st : WaxState) : LoginResult × List ExtCall :=
  match st.userAccount, st.pubKeys with
  | some ua, some _ =>
      if ua ≠ "" then (.immediate ua, []) else (.viaWindow, [.openLoginPopup])
  | _, _ => (.viaWindow, [.openLoginPopup])

/-- The errors the signing path can throw (spec §7).  `whitelistError` is
the TypeError a partial `isWhitelisted` raises out of `canAutoSign`;
`emptyResult` stands for the TypeError the sign callback raises when it
destructures the empty `READY` result of `signing`. -/
inductive SignErr where
  | endpointError
  | declined
  | unexpected (payload : String)
  | whitelistError
  | emptyResult
deriving DecidableEq, Repr

/-- An inbound message payload (`event.data`) for the signing flow: a
`TX_SIGNED` payload with its nullable fields, the `READY` handshake, or
any other message type (carried as its stringified payload). -/
inductive MsgData where
  | txSigned (verified : Bool) (signatures : Option (List String))
      (serializedTransaction : List Nat)
      (whitelistedContracts : Option (List WhitelistedContract))
  | ready
  | other (payload : String)
deriving DecidableEq, Repr

/-- What `receiveSignatures` returns when it does not throw: a signed
result, or the empty array `[]` it returns for a `READY` message. -/
inductive RcvResult where
  | signed (signatures : List String) (serializedTransaction : List Nat)
  | empty
deriving DecidableEq, Repr

/-- `receiveSignatures(event)` from src/src/index.ts, lines 270-297: a
`TX_SIGNED` payload must have truthy `verified` and non-null `signatures`,
else it throws "User declined ..." with the state untouched; on success it
replaces the whitelist with `whitelistedContracts || []` and returns the
signatures together with `Uint8Array.from(serializedTransaction)`
(element-wise reduction mod 256); a `READY` message returns `[]`; any
other type throws the "Unexpected response" error. -/
def receiveSignatures (d : MsgData) (st : WaxState) :
    WaxState × Except SignErr RcvResult :=
  match d with
  | .txSigned verified signatures serTx wlc =>
    match signatures, verified with
    | some sigs, true =>
        ({ st with whitelistedContracts := wlc.getD [] },
         .ok (.signed sigs (serTx.map (· % 256))))
    | _, _ => (st, .error .declined)
  | .ready => (st, .ok .empty)
  | .other payload => (st, .error (.unexpected payload))

/-- Outcome of the `fetch` against the auto-signing endpoint. -/
inductive EndpointOutcome where
  | thrown
  | response (ok : Bool) (hasExcept : Bool) (data : MsgData)

/-- `signViaEndpoint(...)` from src/src/index.ts, lines 217-251: non-OK
HTTP or a `processed.except` body throws, and the result data otherwise
goes through `receiveSignatures`; the surrounding `catch` clears the
whitelist on any of these errors before rethrowing. -/
def signViaEndpoint (o : EndpointOutcome) (st : WaxState) :
    WaxState × Except SignErr RcvResult :=
  match o with
  | .thrown => ({ st with whitelistedContracts := [] }, .error .endpointError)
  | .response ok hasExcept d =>
    if !ok then ({ st with whitelistedContracts := [] }, .error .endpointError)
    else if hasExcept then ({ st with whitelistedContracts := [] }, .error .endpointError)
    else
      match receiveSignatures d st with
      | (st', .ok r) => (st', .ok r)
      | (st', .error e) => ({ st' with whitelistedContracts := [] }, .error e)

/-- Does the auto-signing endpoint outcome make `signViaEndpoint` throw?
True for a rejected fetch, a non-OK status, a `processed.except` body, or
a body that `receiveSignatures` rejects. -/
def endpointFails : EndpointOutcome → Bool
  | .thrown => true
  | .response ok hasExcept d =>
    !ok || hasExcept ||
      (match d with
       | .txSigned verified signatures _ _ => !verified || signatures.isNone
       | .ready => false
       | .other _ => true)

/-- Modelled from the spec: `WaxEventSource.onceEvent` (the class
`WaxEventSource` is not under src/).  Per spec §6 it "resolves with the
handler's return value after exactly one message whose origin matches the
signing/login host"; the qualifying messages are given as a stream, and an
empty stream leaves the wait pending (`none`). -/
def onceEvent (handler : MsgData → WaxState → WaxState × Except SignErr RcvResult)
    (msgs : List MsgData) (st : WaxState) :
    Option (WaxState × Except SignErr RcvResult) :=
  match msgs with
  | [] => none
  | m :: _ => some (handler m st)

/-- `signViaWindow(window, ...)` from src/src/index.ts, lines 253-268:
opens (or reuses, when `win` is `some`) the signing popup, posts the
`TRANSACTION` payload, and waits via `onceEvent` for one qualifying
message handled by `receiveSignatures`.  The window handle does not
affect the produced value; which handle was used is recorded in the
event trace of `signing`. -/
def signViaWindow (_win : Option Nat) (msgs : List MsgData) (st : WaxState) :
    Option (WaxState × Except SignErr RcvResult) :=
  onceEvent receiveSignatures msgs st

/-- The `{ transaction, waxPaysBW }` argument object of `signing`. -/
structure TxArgs where
  transaction : Transaction
  waxPaysBW : Bool
deriving DecidableEq, Repr

/-- The externally visible signing attempts, in order: a POST to the
auto-signing endpoint, or a popup attempt carrying the pre-opened window
handle it was given (`none` = a fresh popup is created). -/
inductive SigEv where
  | endpointAttempt
  | popupAttempt (preOpened : Option Nat)
deriving DecidableEq, Repr

/-- `signing(txArgs)` from src/src/index.ts, lines 206-215: when the
transaction can be auto-signed, try the endpoint and on any failure fall
back once to `signViaWindow(undefined, txArgs)`; otherwise go straight to
`signViaWindow(this.signingWindow, txArgs)`.  A TypeError out of
`canAutoSign` propagates.  Returns the possibly-pending outcome and the
trace of signing attempts. -/
def signing (deser : List Nat → List Action) (txArgs : TxArgs)
    (o : EndpointOutcome) (msgs : List MsgData) (st : WaxState) :
    Option (WaxState × Except SignErr RcvResult) × List SigEv :=
  match canAutoSign deser txArgs.transaction st.whitelistedContracts with
  | .error _ => (some (st, .error .whitelistError), [])
  | .ok true =>
    match signViaEndpoint o st with
    | (st1, .ok r) => (some (st1, .ok r), [.endpointAttempt])
    | (st1, .error _) =>
        (signViaWindow none msgs st1, [.endpointAttempt, .popupAttempt none])
  | .ok false =>
      (signViaWindow st.signingWindow msgs st, [.popupAttempt st.signingWindow])

/-- The caller-supplied request object handed to the signature provider's
sign callback: its `serializedTransaction` field (which the callback
overwrites in place) plus the rest of the object, opaque here. -/
structure SignReqData where
  serializedTransaction : List Nat
  context : Nat
deriving DecidableEq, Repr

/-- The externally supplied co-signer (`apiSigner : SignatureProvider`),
specified only at its interface boundary: the outcome of its
`getAvailableKeys()` call (it may throw, or return a possibly-null key
list) and the possibly-null `signatures` field of its `sign(data)`
result. -/
structure CoSigner where
  keys : Except Unit (Option (List String))
  signSigs : SignReqData → Option (List String)

/-- `getAvailableKeys` of the signature provider built in `receiveLogin`
(src/src/index.ts, lines 127-133):
`[...this.pubKeys, ...((this.apiSigner && (await this.apiSigner.getAvailableKeys())) || [])]`.
The `|| []` guards only a falsy (null) key list; an error thrown by the
co-signer's enumeration propagates. -/
def getAvailableKeys (apiSigner : Option CoSigner) (pubKeys : List String) :
    Except Unit (List String) :=
  match apiSigner with
  | none => .ok pubKeys
  | some c =>
    match c.keys with
    | .error e => .error e
    | .ok ks => .ok (pubKeys ++ ks.getD [])

/-- The value the sign callback resolves with. -/
structure SignResultS where
  signatures : List String
  serializedTransaction : List Nat
deriving DecidableEq, Repr

/-- Everything observable about one run of the sign callback: the
argument object it passed to `signing`, the outcome (`none` while the
popup wait is pending), and the final state of the caller-supplied
request object. -/
structure SignCbOut where
  routerArgs : TxArgs
  result : Option (Except SignErr SignResultS)
  dataAfter : SignReqData
deriving Repr

/-- `sign(data)` of the signature provider built in `receiveLogin`
(src/src/index.ts, lines 134-157): calls `this.signing` with
`{ transaction: data.serializedTransaction, waxPaysBW: !this.apiSigner }`,
writes the returned `serializedTransaction` onto `data`, and resolves
with it plus the wallet signatures followed by the co-signer's
(`(await this.apiSigner.sign(data)).signatures || []`) when a co-signer
is configured.  An empty (`READY`) result of `signing` makes the JS
destructuring produce `undefined` fields whose spread then throws,
modelled as `.error .emptyResult`. -/
def signCb (apiSigner : Option CoSigner) (deser : List Nat → List Action)
    (o : EndpointOutcome) (msgs : List MsgData) (st : WaxState)
    (data : SignReqData) : SignCbOut :=
  let args : TxArgs := ⟨.serialized data.serializedTransaction, apiSigner.isNone⟩
  match (signing deser args o msgs st).1 with
  | none => ⟨args, none, data⟩
  | some (_, .error e) => ⟨args, some (.error e), data⟩
  | some (_, .ok .empty) => ⟨args, some (.error .emptyResult), data⟩
  | some (_, .ok (.signed sigs serTx)) =>
    let data' := { data with serializedTransaction := serTx }
    let coSigs :=
      match apiSigner with
      | none => []
      | some c => (c.signSigs data').getD []
    ⟨args, some (.ok ⟨sigs ++ coSigs, serTx⟩), data'⟩

lemma isWhitelistedSpec_cons (a : Action) (w : WhitelistedContract)
    (ws : List WhitelistedContract) :
    isWhitelistedSpec a (w :: ws) ↔
      (w.contract = a.account ∧
        (a.account = "eosio.token" ∧ a.name = "transfer" →
          a.data.toAccount ∈ w.recipients.getD [])) ∨ isWhitelistedSpec a ws := by
  simp [isWhitelistedSpec, List.mem_cons, or_and_right, exists_or]

/-- C1: `isWhitelisted(action, whitelist)` is true iff some whitelist
entry's `contract` equals `action.account`, except that for an
`eosio.token`/`transfer` action the matching entry must additionally list
`action.data.to` among its `recipients`; for every other contract/name
combination a contract match alone suffices, regardless of the action
data.  Stated on the domain where the scan cannot raise a TypeError,
i.e. every `eosio.token` entry carries a `recipients` list. -/
theorem isWhitelisted_correct (a : Action) (wl : List WhitelistedContract)
    (h : ∀ w ∈ wl, w.contract = "eosio.token" → w.recipients ≠ none) :
    isWhitelisted a wl = .ok true ↔ isWhitelistedSpec a wl := by
  induction wl with
  | nil => simp [isWhitelisted, isWhitelistedSpec]
  | cons w ws ih =>
    have hw := h w (List.mem_cons_self _ _)
    have hws := ih (fun x hx => h x (List.mem_cons_of_mem _ hx))
    rw [isWhitelistedSpec_cons]
    by_cases hc : w.contract = a.account
    · by_cases hsp : a.account = "eosio.token" ∧ a.name = "transfer"
      · obtain ⟨rs, hrs⟩ := Option.ne_none_iff_exists'.mp (hw (hc.trans hsp.1))
        by_cases hto : a.data.toAccount ∈ rs
        · have hL : isWhitelisted a (w :: ws) = .ok true := by
            simp [isWhitelisted, hc, hsp, hrs, hto]
          rw [hL]
          exact iff_of_true rfl (Or.inl ⟨hc, fun _ => by simp [hrs, hto]⟩)
        · have hL : isWhitelisted a (w :: ws) = isWhitelisted a ws := by
            simp [isWhitelisted, hc, hsp, hrs, hto]
          rw [hL, hws]
          constructor
          · exact Or.inr
          · rintro (⟨_, hmem⟩ | hx)
            · exact absurd (by simpa [hrs] using hmem hsp) hto
            · exact hx
      · have hL : isWhitelisted a (w :: ws) = .ok true := by
          simp only [isWhitelisted, if_pos hc]
          rw [if_neg hsp]
        rw [hL]
        exact iff_of_true rfl (Or.inl ⟨hc, fun hx => absurd hx hsp⟩)
    · have hL : isWhitelisted a (w :: ws) = isWhitelisted a ws := by
        simp [isWhitelisted, hc]
      rw [hL, hws]
      constructor
      · exact Or.inr
      · rintro (⟨hcc, _⟩ | hx)
        · exact absurd hcc hc
        · exact hx

/-- Witness for C1 at a concrete transfer action and whitelist. -/
theorem isWhitelisted_correct_witness :
    (∀ w ∈ [WhitelistedContract.mk "eosio.token" (some ["bob"])],
        w.contract = "eosio.token" → w.recipients ≠ none) ∧
      (isWhitelisted ⟨"eosio.token", "transfer", ⟨"bob"⟩⟩
            [WhitelistedContract.mk "eosio.token" (some ["bob"])] = .ok true ↔
        isWhitelistedSpec ⟨"eosio.token", "transfer", ⟨"bob"⟩⟩
          [WhitelistedContract.mk "eosio.token" (some ["bob"])]) :=
  ⟨by decide, isWhitelisted_correct ⟨"eosio.token", "transfer", ⟨"bob"⟩⟩
    [WhitelistedContract.mk "eosio.token" (some ["bob"])] (by decide)⟩

/-- C2: for a transaction already in deserialized action form,
`canAutoSign` returns true iff every action individually passes
`isWhitelisted`; in particular a transaction with an empty action list
auto-signs against any whitelist, the empty one included. -/
theorem canAutoSign_correct (deser : List Nat → List Action)
    (actions : List Action) (wl : List WhitelistedContract) :
    (canAutoSign deser (.deserialized actions) wl = .ok true ↔
      ∀ a ∈ actions, isWhitelisted a wl = .ok true) ∧
      canAutoSign deser (.deserialized []) wl = .ok true := by
  refine ⟨?_, rfl⟩
  induction actions with
  | nil => simp [canAutoSign, allActionsWhitelisted]
  | cons a as ih =>
    simp only [canAutoSign] at ih ⊢
    rw [allActionsWhitelisted]
    rcases hx : isWhitelisted a wl with e | b
    · simp only [List.forall_mem_cons, hx]
      exact iff_of_false (by simp) (by simp)
    · cases b
      · simp only [List.forall_mem_cons, hx]
        exact iff_of_false (by simp) (by simp)
      · simp [List.forall_mem_cons, hx, ih]

/-- C3: after every successful `receiveLogin` and every successful
`TX_SIGNED` round-trip through `receiveSignatures`, the session
whitelist equals exactly the response's `whitelistedContracts` (empty
when that field is absent), regardless of the prior whitelist — the old
value is never merged in. -/
theorem whitelist_replaced :
    (∀ (d : LoginData) (st st' : WaxState) (acct : String),
        receiveLogin d st = .ok (st', acct) →
        st'.whitelistedContracts = d.whitelistedContracts.getD []) ∧
      (∀ (v : Bool) (sigs : Option (List String)) (ser : List Nat)
          (wlc : Option (List WhitelistedContract)) (st st' : WaxState)
          (r : RcvResult),
        receiveSignatures (.txSigned v sigs ser wlc) st = (st', .ok r) →
        st'.whitelistedContracts = wlc.getD []) := by
  constructor
  · rintro ⟨v, oua, opk, owlc, oal⟩ st st' acct h
    cases v
    · exact absurd h (by simp [receiveLogin])
    · cases oua with
      | none => exact absurd h (by simp [receiveLogin])
      | some ua =>
        cases opk with
        | none => exact absurd h (by simp [receiveLogin])
        | some pks =>
          simp only [receiveLogin, Bool.not_true] at h
          rw [if_neg (by simp)] at h
          simp only [Except.ok.injEq, Prod.mk.injEq] at h
          rw [← h.1]
  · intro v sigs ser wlc st st' r h
    unfold receiveSignatures at h
    rcases sigs with _ | ss
    · exact absurd h (by simp)
    · cases v
      · exact absurd h (by simp)
      · simp only [Prod.mk.injEq] at h
        rw [← h.1]

/-- A prior session state holding a non-empty whitelist, used to witness
that the whitelist is replaced rather than merged. -/
def stalePriorState : WaxState :=
  { initState with whitelistedContracts := [⟨"old.contract", some ["x"]⟩] }

/-- The login payload used by the C3 witness. -/
def loginData₀ : LoginData :=
  { verified := true, userAccount := some "alice", pubKeys := some ["PUB_K1"],
    whitelistedContracts := some [⟨"c", none⟩], autoLogin := some true }

/-- The state `receiveLogin loginData₀ stalePriorState` produces. -/
def loginState₀ : WaxState :=
  { userAccount := some "alice", pubKeys := some ["PUB_K1"],
    whitelistedContracts := [⟨"c", none⟩], signingWindow := none,
    autoLoginStored := some (some true) }

/-- The state the C3 witness's `TX_SIGNED` round-trip produces. -/
def signedState₀ : WaxState :=
  { stalePriorState with whitelistedContracts := [] }

/-- Witness for C3: a login response and a `TX_SIGNED` response each
overwrite a non-empty prior whitelist with exactly their own
`whitelistedContracts` payload. -/
theorem whitelist_replaced_witness :
    receiveLogin loginData₀ stalePriorState = .ok (loginState₀, "alice") ∧
      loginState₀.whitelistedContracts = [⟨"c", none⟩] ∧
      receiveSignatures (.txSigned true (some ["SIG1"]) [1, 2, 3] (some []))
          stalePriorState = (signedState₀, .ok (.signed ["SIG1"] [1, 2, 3])) ∧
      signedState₀.whitelistedContracts = [] :=
  ⟨rfl,
   whitelist_replaced.1 loginData₀ stalePriorState loginState₀ "alice" rfl,
   rfl,
   whitelist_replaced.2 true (some ["SIG1"]) [1, 2, 3] (some [])
     stalePriorState signedState₀ (.signed ["SIG1"] [1, 2, 3]) rfl⟩

/-- C5: a `TX_SIGNED` message whose `verified` is not true or whose
`signatures` are null makes `receiveSignatures` throw the
"User declined to sign the transaction" error (state untouched) instead
of returning a result. -/
theorem receiveSignatures_declines (v : Bool) (sigs : Option (List String))
    (ser : List Nat) (wlc : Option (List WhitelistedContract)) (st : WaxState)
    (h : v = false ∨ sigs = none) :
    receiveSignatures (.txSigned v sigs ser wlc) st = (st, .error .declined) := by
  rcases h with h | h <;> subst h
  · rcases sigs with _ | ss <;> rfl
  · rfl

/-- Witness for C5: an unverified `TX_SIGNED` payload is declined. -/
theorem receiveSignatures_declines_witness :
    (false = false ∨ (some ["SIG1"]) = none) ∧
      receiveSignatures (.txSigned false (some ["SIG1"]) [1] none) initState =
        (initState, .error .declined) :=
  ⟨Or.inl rfl,
   receiveSignatures_declines false (some ["SIG1"]) [1] none initState (Or.inl rfl)⟩

/-- C10: `isWhitelisted` returns a boolean for every action exactly when
every `eosio.token` whitelist entry carries a `recipients` list: under
that condition the scan never throws, while an `eosio.token`/`transfer`
action reaching an entry with absent `recipients` makes the scan throw a
TypeError (`w.recipients.includes` on `undefined`) instead of returning
false. -/
theorem isWhitelisted_totality :
    (∀ wl : List WhitelistedContract,
        (∀ w ∈ wl, w.contract = "eosio.token" → w.recipients ≠ none) →
        ∀ a : Action, isWhitelisted a wl ≠ .error ()) ∧
      (∀ (w : WhitelistedContract) (rest : List WhitelistedContract) (dest : String),
        w.contract = "eosio.token" → w.recipients = none →
        isWhitelisted ⟨"eosio.token", "transfer", ⟨dest⟩⟩ (w :: rest) = .error ()) := by
  constructor
  · intro wl
    induction wl with
    | nil => intro _ a; simp [isWhitelisted]
    | cons w ws ih =>
      intro h a
      have hw := h w (List.mem_cons_self _ _)
      have hws := ih (fun x hx => h x (List.mem_cons_of_mem _ hx))
      by_cases hc : w.contract = a.account
      · by_cases hsp : a.account = "eosio.token" ∧ a.name = "transfer"
        · obtain ⟨rs, hrs⟩ := Option.ne_none_iff_exists'.mp (hw (hc.trans hsp.1))
          by_cases hto : a.data.toAccount ∈ rs
          · simp [isWhitelisted, hc, hsp, hrs, hto]
          · simpa [isWhitelisted, hc, hsp, hrs, hto] using hws a
        · simp only [isWhitelisted, if_pos hc]
          rw [if_neg hsp]
          simp
      · simpa [isWhitelisted, hc] using hws a
  · intro w rest dest hcw hrn
    simp [isWhitelisted, hcw, hrn]

/-- Witness for C10: an `eosio.token` entry without `recipients` makes a
transfer throw, while the same transfer against an entry with
`recipients` present evaluates to a boolean. -/
theorem isWhitelisted_totality_witness :
    isWhitelisted ⟨"eosio.token", "transfer", ⟨"carol"⟩⟩
        [WhitelistedContract.mk "eosio.token" none] = .error () ∧
      isWhitelisted ⟨"eosio.token", "transfer", ⟨"carol"⟩⟩
        [WhitelistedContract.mk "eosio.token" (some ["carol"])] ≠ .error () :=
  ⟨isWhitelisted_totality.2 ⟨"eosio.token", none⟩ [] "carol" rfl rfl,
   isWhitelisted_totality.1 [⟨"eosio.token", some ["carol"]⟩] (by decide) _⟩

lemma signViaEndpoint_fails_clears (o : EndpointOutcome) (st : WaxState)
    (h : endpointFails o = true) :
    ∃ e, signViaEndpoint o st = ({ st with whitelistedContracts := [] }, .error e) := by
  cases o with
  | thrown => exact ⟨.endpointError, rfl⟩
  | response ok hasExcept d =>
    cases ok
    · exact ⟨.endpointError, rfl⟩
    · cases hasExcept
      · simp only [endpointFails, Bool.not_true, Bool.false_or] at h
        cases d with
        | txSigned v sigs ser wlc =>
          cases sigs with
          | none => exact ⟨.declined, rfl⟩
          | some ss =>
            cases v
            · exact ⟨.declined, rfl⟩
            · simp at h
        | ready => simp at h
        | other p => exact ⟨.unexpected p, rfl⟩
      · exact ⟨.endpointError, rfl⟩

/-- C4: when the transaction passes `canAutoSign` and the auto-signing
endpoint fails in any way (rejected fetch, non-OK HTTP, `processed.except`
body, or a body `receiveSignatures` rejects), the whitelist is cleared and
exactly one popup signing attempt follows, opened without a pre-existing
window handle; the caller sees only the outcome of that single popup
fallback, never the endpoint error. -/
theorem signing_endpoint_failure (deser : List Nat → List Action)
    (txArgs : TxArgs) (o : EndpointOutcome) (msgs : List MsgData) (st : WaxState)
    (hAuto : canAutoSign deser txArgs.transaction st.whitelistedContracts = .ok true)
    (hFail : endpointFails o = true) :
    signing deser txArgs o msgs st =
      (signViaWindow none msgs { st with whitelistedContracts := [] },
       [.endpointAttempt, .popupAttempt none]) := by
  obtain ⟨e, he⟩ := signViaEndpoint_fails_clears o st hFail
  simp only [signing, hAuto, he]

/-- The trivial external deserializer used by concrete witnesses. -/
def deser₀ : List Nat → List Action := fun _ => []

/-- Witness for C4: an auto-signable transaction whose endpoint fetch
throws falls back to a single fresh-popup attempt over the cleared
whitelist. -/
theorem signing_endpoint_failure_witness :
    canAutoSign deser₀ (Transaction.deserialized [])
        initState.whitelistedContracts = .ok true ∧
      endpointFails .thrown = true ∧
      signing deser₀ ⟨.deserialized [], true⟩ .thrown [] initState =
        (signViaWindow none [] { initState with whitelistedContracts := [] },
         [.endpointAttempt, .popupAttempt none]) :=
  ⟨rfl, rfl,
   signing_endpoint_failure deser₀ ⟨.deserialized [], true⟩ .thrown [] initState rfl rfl⟩

/-- C7: a constructor given `userAccount := "alice"` and
`pubKeys := ["PUB_K1"]` makes `login()` resolve immediately to `"alice"`,
and neither the constructor nor `login()` performs a network request or
opens a popup — whatever the auto-login endpoint would have answered. -/
theorem constructor_direct_login (o : LoginFetchOutcome) :
    (construct (some "alice") (some ["PUB_K1"]) true o).2 = [] ∧
      login (construct (some "alice") (some ["PUB_K1"]) true o).1 =
        (.immediate "alice", []) :=
  ⟨rfl, rfl⟩

/-- C6: the assembled sign callback invokes the signing router with
`waxPaysBW` true exactly when no co-signer is configured; whenever the
router produces a wallet-signed result, the wallet-signed serialized
transaction is written in place onto the caller's request object and is
the one returned; and with a co-signer configured the returned signatures
are the wallet's followed by the co-signer's (the co-signer being asked
to sign the already-updated request object). -/
theorem sign_assembles (apiSigner : Option CoSigner)
    (deser : List Nat → List Action) (o : EndpointOutcome) (msgs : List MsgData)
    (st : WaxState) (data : SignReqData) :
    (signCb apiSigner deser o msgs st data).routerArgs.waxPaysBW = apiSigner.isNone ∧
      (∀ (st' : WaxState) (sigs : List String) (serTx : List Nat),
        (signing deser ⟨.serialized data.serializedTransaction, apiSigner.isNone⟩
              o msgs st).1 = some (st', .ok (.signed sigs serTx)) →
        (signCb apiSigner deser o msgs st data).dataAfter.serializedTransaction = serTx ∧
          ∃ allSigs, (signCb apiSigner deser o msgs st data).result =
            some (.ok ⟨allSigs, serTx⟩)) ∧
      ∀ (c : CoSigner) (st' : WaxState) (sigs : List String) (serTx : List Nat),
        apiSigner = some c →
        (signing deser ⟨.serialized data.serializedTransaction, apiSigner.isNone⟩
              o msgs st).1 = some (st', .ok (.signed sigs serTx)) →
        (signCb apiSigner deser o msgs st data).result =
          some (.ok ⟨sigs ++
            (c.signSigs { data with serializedTransaction := serTx }).getD [], serTx⟩) := by
  refine ⟨?_, ?_, ?_⟩
  · rcases hres : (signing deser
        ⟨.serialized data.serializedTransaction, apiSigner.isNone⟩ o msgs st).1 with
      _ | ⟨st', e | ⟨sigs, serTx⟩ | _⟩ <;> simp [signCb, hres]
  · intro st' sigs serTx hres
    simp only [signCb, hres]
    cases apiSigner <;> exact ⟨trivial, _, rfl⟩
  · intro c st' sigs serTx hc hres
    subst hc
    simp only [signCb, hres]

/-- The co-signer used by the C6 witness: signing through it appends one
signature. -/
def coSigner₀ : CoSigner := ⟨.ok none, fun _ => some ["COSIG"]⟩

/-- The request object used by the C6 witness. -/
def data₀ : SignReqData := ⟨[9], 0⟩

/-- A successful auto-signing endpoint outcome used by the C6 witness. -/
def endpointOk₀ : EndpointOutcome :=
  .response true false (.txSigned true (some ["SIG1"]) [1, 2, 3] (some []))

/-- Witness for C6: with a co-signer configured the router is called with
`waxPaysBW = false`, the wallet-signed bytes land on the request object,
and the co-signer's signature is appended after the wallet's. -/
theorem sign_assembles_witness :
    (signing deser₀ ⟨.serialized data₀.serializedTransaction, (some coSigner₀).isNone⟩
          endpointOk₀ [] initState).1 =
        some ({ initState with whitelistedContracts := [] },
          .ok (.signed ["SIG1"] [1, 2, 3])) ∧
      (signCb (some coSigner₀) deser₀ endpointOk₀ [] initState data₀).routerArgs.waxPaysBW =
        false ∧
      (signCb (some coSigner₀) deser₀ endpointOk₀ [] initState
          data₀).dataAfter.serializedTransaction = [1, 2, 3] ∧
      (signCb (some coSigner₀) deser₀ endpointOk₀ [] initState data₀).result =
        some (.ok ⟨["SIG1", "COSIG"], [1, 2, 3]⟩) := by
  have h := sign_assembles (some coSigner₀) deser₀ endpointOk₀ [] initState data₀
  exact ⟨rfl, h.1,
    (h.2.1 { initState with whitelistedContracts := [] } ["SIG1"] [1, 2, 3] rfl).1,
    h.2.2 coSigner₀ { initState with whitelistedContracts := [] } ["SIG1"] [1, 2, 3]
      rfl rfl⟩

/-- A co-signer whose key enumeration throws, refuting the claim that
`getAvailableKeys` never fails. -/
def failingCoSigner : CoSigner := ⟨.error (), fun _ => none⟩

/-- C8 counterexample: when the configured co-signer's key enumeration
throws, `getAvailableKeys` rejects with that error instead of returning
the wallet's keys — there is no catch around
`await this.apiSigner.getAvailableKeys()`, and the `|| []` guard only
covers a falsy return value, not a thrown one. -/
theorem getAvailableKeys_throws :
    getAvailableKeys (some failingCoSigner) ["PUB_K1"] = .error () := rfl

/-- C8 amended: `getAvailableKeys` returns the wallet's own keys
concatenated with the co-signer's keys when the co-signer's enumeration
returns (an empty contribution for a null key list), and just the
wallet's keys when no co-signer is configured; but it does reject when
the co-signer's enumeration throws. -/
theorem getAvailableKeys_amended :
    (∀ pubKeys : List String, getAvailableKeys none pubKeys = .ok pubKeys) ∧
      ∀ (c : CoSigner) (pubKeys : List String) (ks : Option (List String)),
        c.keys = .ok ks →
        getAvailableKeys (some c) pubKeys = .ok (pubKeys ++ ks.getD []) := by
  refine ⟨fun _ => rfl, fun c pubKeys ks hk => ?_⟩
  simp [getAvailableKeys, hk]

/-- The co-signer used by the C8 witness: enumeration returns one key. -/
def coSignerKeys₀ : CoSigner := ⟨.ok (some ["CO_K1"]), fun _ => none⟩

/-- Witness for C8 (amended): wallet keys come first, the co-signer's key
is appended. -/
theorem getAvailableKeys_amended_witness :
    coSignerKeys₀.keys = .ok (some ["CO_K1"]) ∧
      getAvailableKeys (some coSignerKeys₀) ["PUB_K1"] = .ok ["PUB_K1", "CO_K1"] :=
  ⟨rfl, getAvailableKeys_amended.2 coSignerKeys₀ ["PUB_K1"] (some ["CO_K1"]) rfl⟩

/-- The well-formed `TX_SIGNED` payload queued behind the `READY`
handshake in the C9 counterexample. -/
def goodTxMsg : MsgData := .txSigned true (some ["SIG1"]) [1, 2, 3] (some [])

/-- C9 counterexample: with a `READY` handshake arriving before a valid
`TX_SIGNED` payload, the one-message wait (`onceEvent` resolves after
exactly one qualifying message, spec §6) resolves with the handler's
empty result at the `READY` message — it does not continue to the
`TX_SIGNED` message, so the resolved value is the empty result and not
the signed one. -/
theorem ready_counterexample :
    onceEvent receiveSignatures [MsgData.ready, goodTxMsg] initState =
        some (initState, .ok .empty) ∧
      RcvResult.empty ≠ .signed ["SIG1"] [1, 2, 3] :=
  ⟨rfl, by decide⟩

/-- C9 amended: a `READY` message is handled without error and yields the
empty result, and — because `onceEvent` waits for exactly one qualifying
message — that empty result resolves the popup wait immediately, whatever
messages follow; the wait does not continue to a later `TX_SIGNED`. -/
theorem ready_swallowed (rest : List MsgData) (st : WaxState) :
    onceEvent receiveSignatures (.ready :: rest) st = some (st, .ok .empty) := rfl

end WaxJS
